import Mathlib

/-!
Shallow embedding of the question-understanding and query-synthesis pipeline
of the Neo4j movie question-answering repository.

The deterministic pipeline lives in `neo4j_movie_qa.py`
(class `MovieKnowledgeGraphQA`) and the generative pipeline in
`llm_movie_qa.py` (class `EnhancedMovieKnowledgeGraphQA`).  Pure string
processing is translated directly; the Neo4j session and the OpenAI client
are modelled as explicit function parameters returning `Except String _`
(an `Except.error` models a raised Python exception), so that the
try/except structure of the source becomes a `match` on those results.
-/

namespace MovieQA

/-- Characters removed by Python `str.strip()` with no argument:
space and the ASCII whitespace control characters 9..13. -/
def pyIsSpace (c : Char) : Bool :=
  c.toNat == 32 || (9 ≤ c.toNat && c.toNat ≤ 13)

/-- Drop characters satisfying `p` from both ends of a character list,
the semantics of Python `str.strip(chars)`. -/
def pyStripWith (p : Char → Bool) (cs : List Char) : List Char :=
  ((cs.dropWhile p).reverse.dropWhile p).reverse

/-- Python `question.strip()` on the underlying character list. -/
def pyStripL (cs : List Char) : List Char := pyStripWith pyIsSpace cs

/-- Python `question.strip()`. -/
def pyStrip (s : String) : String := ⟨pyStripL s.data⟩

/-- Membership in Python `string.punctuation`, which is exactly the set of
ASCII punctuation characters: codes 33..47, 58..64, 91..96 and 123..126. -/
def pyIsPunct (c : Char) : Bool :=
  (33 ≤ c.toNat && c.toNat ≤ 47) || (58 ≤ c.toNat && c.toNat ≤ 64) ||
  (91 ≤ c.toNat && c.toNat ≤ 96) || (123 ≤ c.toNat && c.toNat ≤ 126)

/-- Python `param.strip(string.punctuation)` on character lists. -/
def stripPunctL (cs : List Char) : List Char := pyStripWith pyIsPunct cs

/-- Python `param.strip(string.punctuation)`. -/
def stripPunct (s : String) : String := ⟨stripPunctL s.data⟩

/-- ASCII lower-case folding: models the case folding `re.IGNORECASE`
performs on the ASCII-only regex patterns of `define_question_patterns`. -/
def pyToLower (c : Char) : Char :=
  if 65 ≤ c.toNat ∧ c.toNat ≤ 90 then Char.ofNat (c.toNat + 32) else c

/-- Lower-case an entire character list. -/
def lowerL (cs : List Char) : List Char := cs.map pyToLower

/-- Does the literal `ls` occur in `lq` starting exactly at index `j`?
(Used for the literal suffix that follows the `(.*)` group.) -/
def matchesAt (lq ls : List Char) (j : Nat) : Bool :=
  (lq.drop j).take ls.length == ls

/-- Is the region `[i, j)` of `lq` free of newline characters?  The regex
atom `.` does not match a newline, so the `(.*)` group may only cover a
newline-free region. -/
def midOk (lq : List Char) (i j : Nat) : Bool :=
  ((lq.drop i).take (j - i)).all (fun c => c != '\n')

/-- Greedy choice of the end position of the `(.*)` group: the largest
index `j ≥ minJ` such that the literal suffix matches at `j` and the
group region `[minJ, j)` contains no newline. -/
def lastMatchPos (lq ls : List Char) (minJ : Nat) : Option Nat :=
  ((List.range (lq.length + 1)).filter
    (fun j => decide (minJ ≤ j) && matchesAt lq ls j && midOk lq minJ j)).getLast?

/-- Model of `re.match(pattern, question, re.IGNORECASE)` for the pattern
shape used by every rule of `define_question_patterns`: a literal prefix,
one greedy group `(.*)`, and a literal suffix (possibly empty).  `re.match`
anchors at position 0 but does not require the match to span the whole
string.  Returns the text captured by the group (taken from the original,
non-lowercased question). -/
def pymatch (pfx sfx : String) (q : String) : Option String :=
  let lq := lowerL q.data
  let lp := lowerL pfx.data
  let ls := lowerL sfx.data
  if lp.isPrefixOf lq then
    match lastMatchPos lq ls lp.length with
    | some j => some ⟨(q.data.drop lp.length).take (j - lp.length)⟩
    | none => none
  else none

/-- Query template of the `director_movies` intent, exactly as written in
the triple-quoted string of `define_question_patterns`. -/
def director_query : String :=
  "\n                    MATCH (p:Person)-[:DIRECTED]->(m:Movie)\n                    WHERE p.name = $param1\n                    RETURN m.name as movie, m.year as year, m.rating as rating\n                    ORDER BY m.rating DESC\n                "

/-- Query template of the `actor_movies` intent. -/
def actor_query : String :=
  "\n                    MATCH (p:Person)-[:ACTED_IN]->(m:Movie)\n                    WHERE p.name = $param1\n                    RETURN m.name as movie, m.year as year, m.rating as rating\n                    ORDER BY m.rating DESC\n                "

/-- Query template of the `movie_info` intent. -/
def movie_info_query : String :=
  "\n                    MATCH (m:Movie)\n                    WHERE m.name = $param1\n                    OPTIONAL MATCH (p1:Person)-[:DIRECTED]->(m)\n                    OPTIONAL MATCH (p2:Person)-[:ACTED_IN]->(m)\n                    OPTIONAL MATCH (m)-[:BELONGS_TO]->(g:Genre)\n                    RETURN m.name as movie, m.year as year, m.rating as rating,\n                           m.certificate as certificate, m.run_time as runtime,\n                           collect(DISTINCT p1.name) as directors,\n                           collect(DISTINCT p2.name) as actors,\n                           collect(DISTINCT g.name) as genres\n                "

/-- The three alternative regexes of the `director_movies` intent,
decomposed into their literal prefix and literal suffix around the single
`(.*)` group. -/
def director_patterns : List (String × String) :=
  [("what movies did ", " direct"),
   ("show me movies directed by ", ""),
   ("list ", "\x27s movies as director")]

/-- The three alternative regexes of the `actor_movies` intent. -/
def actor_patterns : List (String × String) :=
  [("what movies did ", " act in"),
   ("show me movies starring ", ""),
   ("which movies featured ", "")]

/-- The three alternative regexes of the `movie_info` intent. -/
def movie_info_patterns : List (String × String) :=
  [("tell me about the movie ", ""),
   ("what is the information for ", ""),
   ("show details of movie ", "")]

/-- The ordered rule table of `define_question_patterns`: intent tag,
ordered alternative regexes, query template.  Python 3.7+ dicts preserve
insertion order, so iteration in `match_question` visits the intents in
exactly this order. -/
def question_patterns : List (String × List (String × String) × String) :=
  [ ("director_movies", (director_patterns, director_query)),
    ("actor_movies", (actor_patterns, actor_query)),
    ("movie_info", (movie_info_patterns, movie_info_query)) ]

/-- Inner loop of `match_question`: try each alternative regex of one
intent in the order listed, returning the first captured group. -/
def tryPatterns : List (String × String) → String → Option String
  | [], _ => none
  | (pfx, sfx) :: rest, q =>
    match pymatch pfx sfx q with
    | some g => some g
    | none => tryPatterns rest q

/-- Outer loop of `match_question`: visit the intents in table order;
on the first regex match return the intent tag and the captured group
stripped of surrounding punctuation (every pattern in the table has
exactly one group, so the `len(match.groups()) > 0` test is always true). -/
def matchFirst : List (String × List (String × String) × String) → String →
    Option String × Option String
  | [], _ => (none, none)
  | (query_type, pats, _) :: rest, q =>
    match tryPatterns pats q with
    | some g => (some query_type, some (stripPunct g))
    | none => matchFirst rest q

/-- `MovieKnowledgeGraphQA.match_question`: strip surrounding whitespace,
then scan the rule table for the first anchored, case-insensitive match. -/
def match_question (question : String) : Option String × Option String :=
  matchFirst question_patterns (pyStrip question)

/-- Lookup `self.question_patterns[query_type]["query"]`. -/
def lookupQuery (query_type : String) : Option String :=
  (question_patterns.find? (fun e => e.1 == query_type)).map (fun e => e.2.2)

/-- One result row (`record.data()` in `execute_query`): a mapping of the
field names produced by the query templates to their values.  Values are
modelled by their rendered character sequence (the formatter only ever
interpolates them into f-strings, i.e. applies `str()`), and the three
list-valued fields of the `movie_info` query are lists of rendered names. -/
structure Row where
  movie : List Char := []
  year : List Char := []
  rating : List Char := []
  certificate : List Char := []
  runtime : List Char := []
  directors : List (List Char) := []
  actors : List (List Char) := []
  genres : List (List Char) := []
deriving Repr, DecidableEq

/-- Python `sep.join(xs)`. -/
def joinSep (sep : List Char) : List (List Char) → List Char
  | [] => []
  | [x] => x
  | x :: y :: xs => x ++ sep ++ joinSep sep (y :: xs)

/-- Split a character list at newline characters (the lines of a rendered
response, in the sense of `"\n".join`). -/
def splitNL : List Char → List (List Char)
  | [] => [[]]
  | c :: cs =>
    match splitNL cs with
    | [] => [[c]]
    | x :: xs => if c = '\n' then [] :: x :: xs else (c :: x) :: xs

/-- The per-row line of the `director_movies` / `actor_movies` branch of
`format_response`: the f-string
`"<movie> (<year>) - Rating: <rating>"`. -/
def fmtMovieLine (r : Row) : List Char :=
  r.movie ++ (" (").data ++ r.year ++ (") - Rating: ").data ++ r.rating

/-- The multi-line block of the `movie_info` branch of `format_response`. -/
def fmtInfoBlock (r : Row) : List Char :=
  ("Movie: ").data ++ r.movie ++ (" (").data ++ r.year ++ (")\nRating: ").data ++
  r.rating ++ ("\nCertificate: ").data ++ r.certificate ++ ("\nRuntime: ").data ++
  r.runtime ++ ("\nDirectors: ").data ++ joinSep (", ").data r.directors ++
  ("\nGenres: ").data ++ joinSep (", ").data r.genres ++
  ("\nActors: ").data ++ joinSep (", ").data r.actors

/-- Python `repr` of a string value, as it appears inside the repr of a
dict. -/
def pyReprStr (cs : List Char) : List Char :=
  ("\x27").data ++ cs ++ ("\x27").data

/-- Python repr of a list of strings. -/
def pyReprList (xs : List (List Char)) : List Char :=
  ("[").data ++ joinSep (", ").data (xs.map pyReprStr) ++ ("]").data

/-- Rendering of the `else` branch of `format_response` (`f"{result}"`,
the repr of the row dict).  This branch is unreachable from
`answer_question`, whose `query_type` is always a key of
`question_patterns`. -/
def reprRow (r : Row) : List Char :=
  ("\x7b").data ++
  joinSep (", ").data
    [("\x27movie\x27: ").data ++ pyReprStr r.movie,
     ("\x27year\x27: ").data ++ pyReprStr r.year,
     ("\x27rating\x27: ").data ++ pyReprStr r.rating,
     ("\x27certificate\x27: ").data ++ pyReprStr r.certificate,
     ("\x27runtime\x27: ").data ++ pyReprStr r.runtime,
     ("\x27directors\x27: ").data ++ pyReprList r.directors,
     ("\x27actors\x27: ").data ++ pyReprList r.actors,
     ("\x27genres\x27: ").data ++ pyReprList r.genres] ++
  ("\x7d").data

/-- `MovieKnowledgeGraphQA.format_response`: `"No results found."` for an
empty result list, otherwise the newline-join of the per-row renderings,
with the branch on `query_type` taken per row exactly as in the source
loop. -/
def format_response (query_type : String) (results : List Row) : String :=
  if results.isEmpty then "No results found."
  else
    ⟨joinSep ['\n'] (results.map (fun result =>
      if query_type == "director_movies" || query_type == "actor_movies" then
        fmtMovieLine result
      else if query_type == "movie_info" then
        fmtInfoBlock result
      else
        reprRow result))⟩

/-- Python truthiness of an `Optional[str]`: `None` and the empty string
are falsy, every other string is truthy. -/
def pyTruthyStr : Option String → Bool
  | none => false
  | some s => !s.isEmpty

/-- The log message of the `except` branch in the deterministic `execute_query`:
`f"Error executing query: {query} with param: {param}\n{e}"` (an f-string
renders `None` as `"None"`). -/
def errMsgDet (query : String) (param : Option String) (e : String) : String :=
  "Error executing query: " ++ query ++ " with param: " ++
  (match param with | none => "None" | some s => s) ++ "\n" ++ e

/-- The session call of the deterministic `execute_query`: the branch is
selected by `if param:` (truthiness), binding `param1` only when `param`
is a non-empty string.  `run` models `session.run` plus the collection of
the records; an `Except.error` models a raised exception. -/
def sessionCallDet (run : String → Option String → Except String (List Row))
    (query : String) (param : Option String) : Except String (List Row) :=
  if pyTruthyStr param then run query param else run query none

/-- `MovieKnowledgeGraphQA.execute_query`: returns the rows on success
and, on any exception, logs the query, the parameter and the error and
returns the empty list.  The second component is the logged error message
(`none` when nothing is logged). -/
def execute_query (run : String → Option String → Except String (List Row))
    (query : String) (param : Option String) : List Row × Option String :=
  match sessionCallDet run query param with
  | .ok results => (results, none)
  | .error e => ([], some (errMsgDet query param e))

/-- The body of the `try` block of `answer_question`, with each component
call modelled as an `Except`-valued function so that an exception escaping
any component surfaces as an `Except.error` of the whole pipeline. -/
def det_pipeline (matchQ : String → Except String (Option String × Option String))
    (getQuery : String → Except String String)
    (exec : String → Option String → Except String (List Row))
    (fmt : String → List Row → Except String String)
    (question : String) : Except String String := do
  let mp ← matchQ question
  if pyTruthyStr mp.1 then do
    let query ← getQuery (mp.1.getD "")
    let results ← exec query mp.2
    fmt (mp.1.getD "") results
  else
    pure "I\x27m sorry, I don\x27t understand that question."

/-- The `try`/`except` wrapper of `answer_question` over arbitrary
components: any error of the pipeline is caught and replaced by the fixed
error message of the deterministic pipeline. -/
def answer_question_general
    (matchQ : String → Except String (Option String × Option String))
    (getQuery : String → Except String String)
    (exec : String → Option String → Except String (List Row))
    (fmt : String → List Row → Except String String)
    (question : String) : String :=
  match det_pipeline matchQ getQuery exec fmt question with
  | .ok s => s
  | .error _ => "I encountered an error while processing your question."

/-- `MovieKnowledgeGraphQA.answer_question`: the orchestrator instantiated
with the concrete components of the class, parametrised only by the
graph-session behaviour `run`. -/
def answer_question (run : String → Option String → Except String (List Row))
    (question : String) : String :=
  answer_question_general
    (fun q => .ok (match_question q))
    (fun query_type =>
      match lookupQuery query_type with
      | some s => .ok s
      | none => .error "KeyError")
    (fun query param => .ok (execute_query run query param).1)
    (fun query_type results => .ok (format_response query_type results))
    question

/-- Values produced by `json.loads`: an arbitrary JSON value, not
necessarily an object of the expected shape. -/
inductive Json where
  | null
  | bool (b : Bool)
  | num (n : Int)
  | str (s : String)
  | arr (xs : List Json)
  | obj (fields : List (String × Json))

/-- The fixed fallback value of the `except` branch in `get_question_intent`:
the Python dict `{"primary_intent": None, "entities": {}}`. -/
def intentFallback : Json :=
  Json.obj [("primary_intent", Json.null), ("entities", Json.obj [])]

/-- `EnhancedMovieKnowledgeGraphQA.get_question_intent`: call the model
(`llm` returns `response.choices[0].message.content`, an `Except.error`
modelling a raised exception), strip the raw text and parse it with
`json.loads` (modelled by `parse`); whatever parses is returned as-is, and
any exception yields the fixed fallback dict. -/
def get_question_intent (llm : String → Except String String)
    (parse : String → Except String Json) (question : String) : Json :=
  match llm question with
  | .error _ => intentFallback
  | .ok raw =>
    match parse (pyStrip raw) with
    | .error _ => intentFallback
    | .ok v => v

/-- The backtick character. -/
def backtick : Char := Char.ofNat 96

/-- The sanitisation step at the end of `generate_cypher_query`:
`query = response.choices[0].message.content.strip()`, then
`if query.startswith("```"): query = query.strip("```").strip()`
(`str.strip("```")` removes backtick characters from both ends). -/
def sanitize_cypher (raw : String) : String :=
  let query := pyStrip raw
  if ("```").data.isPrefixOf query.data then
    pyStrip ⟨pyStripWith (fun c => c == backtick) query.data⟩
  else query

/-- `EnhancedMovieKnowledgeGraphQA.generate_cypher_query`: the model call
(no `try` block, so its exception propagates) followed by the
sanitisation of the returned text. -/
def generate_cypher_query (llm : String → Except String String)
    (question : String) : Except String String :=
  (llm question).map sanitize_cypher

/-- The log message of the `except` branch in the generative `execute_query`:
`f"Error executing query: {cypher_query}\n{e}"`. -/
def errMsgGen (cypher_query e : String) : String :=
  "Error executing query: " ++ cypher_query ++ "\n" ++ e

/-- `EnhancedMovieKnowledgeGraphQA.execute_query`: no query parameters;
returns the rows on success and, on any exception, logs the query and the
error and returns the empty list (the log message is the second
component). -/
def llm_execute_query (run : String → Except String (List Row))
    (cypher_query : String) : List Row × Option String :=
  match run cypher_query with
  | .ok results => (results, none)
  | .error e => ([], some (errMsgGen cypher_query e))

/-- The body of the `try` block of `handle_complex_query`:
generate the query from the model (`llmCypher` gives the raw model text),
execute it fail-soft, and compose the answer with a second model call
(`llmAnswer`, which may raise). -/
def gen_pipeline (llmCypher : String → Except String String)
    (run : String → Except String (List Row))
    (llmAnswer : String → List Row → Except String String)
    (question : String) : Except String String := do
  let cypher_query ← generate_cypher_query llmCypher question
  let query_results := (llm_execute_query run cypher_query).1
  let answer ← llmAnswer question query_results
  pure answer

/-- `EnhancedMovieKnowledgeGraphQA.handle_complex_query`: the generative
orchestrator; any error of the pipeline is caught and replaced by the
fixed error message of the generative pipeline. -/
def handle_complex_query (llmCypher : String → Except String String)
    (run : String → Except String (List Row))
    (llmAnswer : String → List Row → Except String String)
    (question : String) : String :=
  match gen_pipeline llmCypher run llmAnswer question with
  | .ok answer => answer
  | .error _ =>
    "I encountered an error while processing your question. Please try again."

/-- A row is newline-free when none of the three fields used by the
movie-list formatter contains a newline character. -/
def rowNLFree (r : Row) : Prop :=
  ('\n' ∉ r.movie) ∧ ('\n' ∉ r.year) ∧ ('\n' ∉ r.rating)

instance (r : Row) : Decidable (rowNLFree r) :=
  inferInstanceAs (Decidable (('\n' ∉ r.movie) ∧ ('\n' ∉ r.year) ∧ ('\n' ∉ r.rating)))

theorem toNat_ofNat_valid (n : Nat) (h : n.isValidChar) : (Char.ofNat n).toNat = n := by
  rw [Char.ofNat, dif_pos h]
  rfl

theorem dropWhile_of_all_neg {α} (p : α → Bool) :
    ∀ l : List α, (∀ c ∈ l, p c = false) → l.dropWhile p = l
  | [], _ => rfl
  | a :: l, h => by
    rw [List.dropWhile_cons_of_neg (by simp [h a (by simp)])]

theorem dropWhile_idem {α} (p : α → Bool) (l : List α) :
    (l.dropWhile p).dropWhile p = l.dropWhile p := by
  induction l with
  | nil => rfl
  | cons a l ih =>
    cases hpa : p a with
    | true => rw [List.dropWhile_cons_of_pos (by simp [hpa]), ih]
    | false =>
      rw [List.dropWhile_cons_of_neg (by simp [hpa]),
        List.dropWhile_cons_of_neg (by simp [hpa])]

theorem dropWhile_trimRight_self (p : Char → Bool) (l : List Char)
    (h : l.dropWhile p = l) :
    (l.reverse.dropWhile p).reverse.dropWhile p = (l.reverse.dropWhile p).reverse := by
  have hsplit : (l.reverse.dropWhile p).reverse ++ (l.reverse.takeWhile p).reverse = l := by
    rw [← List.reverse_append, List.takeWhile_append_dropWhile, List.reverse_reverse]
  generalize hR : (l.reverse.dropWhile p).reverse = R at hsplit ⊢
  cases R with
  | nil => rfl
  | cons a R =>
    cases hpa : p a with
    | false => exact List.dropWhile_cons_of_neg (by simp [hpa])
    | true =>
      exfalso
      rw [← hsplit, List.cons_append,
        List.dropWhile_cons_of_pos (by simp [hpa])] at h
      have hle := (List.dropWhile_sublist
        (l := R ++ (l.reverse.takeWhile p).reverse) p).length_le
      have hlen := congrArg List.length h
      simp only [List.length_cons] at hlen
      omega

theorem pyStripWith_idem (p : Char → Bool) (cs : List Char) :
    pyStripWith p (pyStripWith p cs) = pyStripWith p cs := by
  unfold pyStripWith
  rw [dropWhile_trimRight_self p (cs.dropWhile p) (dropWhile_idem p cs),
    List.reverse_reverse, dropWhile_idem]

theorem pyStrip_idem (s : String) : pyStrip (pyStrip s) = pyStrip s := by
  show (⟨pyStripL (pyStripL s.data)⟩ : String) = ⟨pyStripL s.data⟩
  rw [pyStripL, pyStripL, pyStripWith_idem]

theorem splitNL_ne_nil (cs : List Char) : splitNL cs ≠ [] := by
  induction cs with
  | nil => simp [splitNL]
  | cons c cs ih =>
    unfold splitNL
    cases h : splitNL cs with
    | nil => simp
    | cons x xs =>
      by_cases hc : c = '\n' <;> simp [hc]

theorem splitNL_no_nl (x : List Char) (h : ∀ c ∈ x, c ≠ '\n') : splitNL x = [x] := by
  induction x with
  | nil => rfl
  | cons c cs ih =>
    have hc : c ≠ '\n' := h c (by simp)
    have hcs := ih (fun d hd => h d (by simp [hd]))
    simp [splitNL, hcs, hc]

theorem splitNL_append (x rest : List Char) (h : ∀ c ∈ x, c ≠ '\n') :
    splitNL (x ++ '\n' :: rest) = x :: splitNL rest := by
  induction x with
  | nil =>
    simp only [List.nil_append]
    cases hrest : splitNL rest with
    | nil => exact absurd hrest (splitNL_ne_nil rest)
    | cons y ys => simp [splitNL, hrest]
  | cons c cs ih =>
    have hc : c ≠ '\n' := h c (by simp)
    have ih' := ih (fun d hd => h d (by simp [hd]))
    simp [splitNL, ih', hc]

theorem splitNL_joinSep (xss : List (List Char)) (hne : xss ≠ [])
    (h : ∀ xs ∈ xss, ∀ c ∈ xs, c ≠ '\n') :
    splitNL (joinSep ['\n'] xss) = xss := by
  induction xss with
  | nil => cases hne rfl
  | cons x xss ih =>
    cases xss with
    | nil => exact splitNL_no_nl x (h x (by simp))
    | cons y yss =>
      have hj : joinSep ['\n'] (x :: y :: yss) = x ++ '\n' :: joinSep ['\n'] (y :: yss) := by
        simp [joinSep, List.append_assoc]
      rw [hj, splitNL_append x _ (h x (by simp)),
        ih (by simp) (fun xs hxs c hc => h xs (by simp [hxs]) c hc)]

theorem fmtMovieLine_nl_free (r : Row) (h : rowNLFree r) :
    ∀ c ∈ fmtMovieLine r, c ≠ '\n' := by
  obtain ⟨h1, h2, h3⟩ := h
  intro c hc he
  subst he
  simp only [fmtMovieLine, List.mem_append] at hc
  rcases hc with ((((hm | hs) | hy) | hs2) | hr)
  · exact h1 hm
  · exact absurd hs (by decide)
  · exact h2 hy
  · exact absurd hs2 (by decide)
  · exact h3 hr

theorem pyIsSpace_pyToLower (c : Char) : pyIsSpace (pyToLower c) = pyIsSpace c := by
  unfold pyToLower
  by_cases h : 65 ≤ c.toNat ∧ c.toNat ≤ 90
  · rw [if_pos h]
    have hv : (c.toNat + 32).isValidChar := Or.inl (by omega)
    have e1 : pyIsSpace (Char.ofNat (c.toNat + 32)) = false := by
      simp only [pyIsSpace, toNat_ofNat_valid _ hv, Bool.or_eq_false_iff,
        Bool.and_eq_false_iff, beq_eq_false_iff_ne, ne_eq, decide_eq_false_iff_not]
      omega
    have e2 : pyIsSpace c = false := by
      simp only [pyIsSpace, Bool.or_eq_false_iff, Bool.and_eq_false_iff,
        beq_eq_false_iff_ne, ne_eq, decide_eq_false_iff_not]
      omega
    rw [e1, e2]
  · rw [if_neg h]

theorem pyStripWith_map (p : Char → Bool) (f : Char → Char) (l : List Char) :
    pyStripWith p (l.map f) = (pyStripWith (fun c => p (f c)) l).map f := by
  unfold pyStripWith
  rw [List.dropWhile_map, ← List.map_reverse, List.dropWhile_map, ← List.map_reverse]
  rfl

theorem pyStripL_lowerL (cs : List Char) : pyStripL (lowerL cs) = lowerL (pyStripL cs) := by
  unfold pyStripL lowerL
  rw [pyStripWith_map]
  have : (fun c => pyIsSpace (pyToLower c)) = pyIsSpace := funext pyIsSpace_pyToLower
  rw [this]

theorem pymatch_anchor (pfx sfx q g : String) (h : pymatch pfx sfx q = some g) :
    (lowerL pfx.data).isPrefixOf (lowerL q.data) = true := by
  by_cases hp : (lowerL pfx.data).isPrefixOf (lowerL q.data) = true
  · exact hp
  · exfalso
    unfold pymatch at h
    rw [if_neg (by simp [hp])] at h
    exact Option.noConfusion h

theorem pymatch_isSome_of_lower_eq (pfx sfx q1 q2 : String)
    (h : lowerL q1.data = lowerL q2.data) :
    (pymatch pfx sfx q1).isSome = (pymatch pfx sfx q2).isSome := by
  unfold pymatch
  rw [h]
  by_cases hp : (lowerL pfx.data).isPrefixOf (lowerL q2.data) = true
  · rw [if_pos (by simp [hp]), if_pos (by simp [hp])]
    cases lastMatchPos (lowerL q2.data) (lowerL sfx.data) (lowerL pfx.data).length <;> rfl
  · rw [if_neg (by simp [hp]), if_neg (by simp [hp])]

theorem tryPatterns_isSome_of_lower_eq (pats : List (String × String)) (q1 q2 : String)
    (h : lowerL q1.data = lowerL q2.data) :
    (tryPatterns pats q1).isSome = (tryPatterns pats q2).isSome := by
  induction pats with
  | nil => rfl
  | cons p rest ih =>
    obtain ⟨pfx, sfx⟩ := p
    have hp := pymatch_isSome_of_lower_eq pfx sfx q1 q2 h
    unfold tryPatterns
    cases h1 : pymatch pfx sfx q1 with
    | some g =>
      cases h2 : pymatch pfx sfx q2 with
      | some g2 => rfl
      | none => rw [h1, h2] at hp; exact absurd hp (by simp)
    | none =>
      cases h2 : pymatch pfx sfx q2 with
      | some g2 => rw [h1, h2] at hp; exact absurd hp (by simp)
      | none => exact ih

theorem matchFirst_fst_of_lower_eq
    (entries : List (String × List (String × String) × String)) (q1 q2 : String)
    (h : lowerL q1.data = lowerL q2.data) :
    (matchFirst entries q1).1 = (matchFirst entries q2).1 := by
  induction entries with
  | nil => rfl
  | cons e rest ih =>
    obtain ⟨query_type, pats, query⟩ := e
    have hp := tryPatterns_isSome_of_lower_eq pats q1 q2 h
    unfold matchFirst
    cases h1 : tryPatterns pats q1 with
    | some g =>
      cases h2 : tryPatterns pats q2 with
      | some g2 => rfl
      | none => rw [h1, h2] at hp; exact absurd hp (by simp)
    | none =>
      cases h2 : tryPatterns pats q2 with
      | some g2 => rw [h1, h2] at hp; exact absurd hp (by simp)
      | none => exact ih

theorem match_question_fst_of_lower_eq (q1 q2 : String)
    (h : lowerL q1.data = lowerL q2.data) :
    (match_question q1).1 = (match_question q2).1 := by
  apply matchFirst_fst_of_lower_eq
  show lowerL (pyStripL q1.data) = lowerL (pyStripL q2.data)
  rw [← pyStripL_lowerL, ← pyStripL_lowerL, h]

/-- Does `needle` occur as a contiguous substring of `hay`? -/
def hasSubstr (needle hay : List Char) : Bool :=
  (List.range (hay.length + 1)).any (fun i => (hay.drop i).take needle.length == needle)

/-- Sample rows for concrete instantiations. -/
def sampleRow1 : Row :=
  { movie := ("Inception").data, year := ("2010").data, rating := ("8.8").data }

/-- A second sample row. -/
def sampleRow2 : Row :=
  { movie := ("Dunkirk").data, year := ("2017").data, rating := ("7.8").data }

theorem errMsgDet_decomp (query : String) (param : Option String) (e : String) :
    (∃ u v, (errMsgDet query param e).data = u ++ query.data ++ v) ∧
    (∃ u v, (errMsgDet query param e).data = u ++ e.data ++ v) := by
  cases param with
  | none =>
    constructor
    · exact ⟨("Error executing query: ").data, (" with param: None\n" ++ e).data,
        by simp [errMsgDet, String.data_append, List.append_assoc]⟩
    · exact ⟨("Error executing query: " ++ query ++ " with param: None\n").data, [],
        by simp [errMsgDet, String.data_append, List.append_assoc]⟩
  | some s =>
    constructor
    · exact ⟨("Error executing query: ").data,
        (" with param: " ++ s ++ "\n" ++ e).data,
        by simp [errMsgDet, String.data_append, List.append_assoc]⟩
    · exact ⟨("Error executing query: " ++ query ++ " with param: " ++ s ++ "\n").data,
        [], by simp [errMsgDet, String.data_append, List.append_assoc]⟩

/-- C1: whatever the session does, both executors are total: on success
they return the rows with nothing logged, and on any raised exception
they log a message containing the query and the error and return the
empty list — an exception never escapes `execute_query` in either the
deterministic or the generative pipeline. -/
theorem C1_execute_query_fail_soft :
    (∀ (run : String → Option String → Except String (List Row))
        (query : String) (param : Option String),
      (∃ results, sessionCallDet run query param = .ok results ∧
        execute_query run query param = (results, none))
      ∨ (∃ e, sessionCallDet run query param = .error e ∧
          execute_query run query param = ([], some (errMsgDet query param e)) ∧
          (∃ u v, (errMsgDet query param e).data = u ++ query.data ++ v) ∧
          (∃ u v, (errMsgDet query param e).data = u ++ e.data ++ v)))
    ∧ (∀ (run : String → Except String (List Row)) (cypher_query : String),
      (∃ results, run cypher_query = .ok results ∧
        llm_execute_query run cypher_query = (results, none))
      ∨ (∃ e, run cypher_query = .error e ∧
          llm_execute_query run cypher_query = ([], some (errMsgGen cypher_query e)) ∧
          (∃ u v, (errMsgGen cypher_query e).data = u ++ cypher_query.data ++ v) ∧
          (∃ u v, (errMsgGen cypher_query e).data = u ++ e.data ++ v))) := by
  constructor
  · intro run query param
    cases h : sessionCallDet run query param with
    | ok results =>
      exact Or.inl ⟨results, rfl, by unfold execute_query; rw [h]⟩
    | error e =>
      exact Or.inr ⟨e, rfl, by unfold execute_query; rw [h],
        (errMsgDet_decomp query param e).1, (errMsgDet_decomp query param e).2⟩
  · intro run cypher_query
    cases h : run cypher_query with
    | ok results =>
      exact Or.inl ⟨results, rfl, by unfold llm_execute_query; rw [h]⟩
    | error e =>
      exact Or.inr ⟨e, rfl, by unfold llm_execute_query; rw [h],
        ⟨("Error executing query: ").data, ("\n" ++ e).data,
          by simp [errMsgGen, String.data_append, List.append_assoc]⟩,
        ⟨("Error executing query: " ++ cypher_query ++ "\n").data, [],
          by simp [errMsgGen, String.data_append, List.append_assoc]⟩⟩

/-- C2 fails as stated: with a component raising during orchestration
(here the formatter), the deterministic `answer_question` returns
`"I encountered an error while processing your question."`, which is not
the string `"I encountered an error while processing your question.
Please try again."` the claim requires of both entry points. -/
theorem C2_counterexample :
    answer_question_general (fun q => .ok (match_question q))
      (fun query_type =>
        match lookupQuery query_type with
        | some s => .ok s
        | none => .error "KeyError")
      (fun _ _ => .ok [])
      (fun _ _ => .error "KeyError: movie")
      "What movies did Christopher Nolan direct"
      = "I encountered an error while processing your question."
    ∧ "I encountered an error while processing your question."
      ≠ "I encountered an error while processing your question. Please try again." := by
  constructor
  · rfl
  · decide

/-- C2 amended: each orchestrator catches any error escaping a component
and returns its own fixed message — the deterministic one returns
`"I encountered an error while processing your question."` and only the
generative one appends `" Please try again."`. -/
theorem C2_orchestrator_catch_messages :
    (∀ (matchQ : String → Except String (Option String × Option String))
        (getQuery : String → Except String String)
        (exec : String → Option String → Except String (List Row))
        (fmt : String → List Row → Except String String) (question e : String),
      det_pipeline matchQ getQuery exec fmt question = .error e →
      answer_question_general matchQ getQuery exec fmt question
        = "I encountered an error while processing your question.")
    ∧ (∀ (llmCypher : String → Except String String)
        (run : String → Except String (List Row))
        (llmAnswer : String → List Row → Except String String) (question e : String),
      gen_pipeline llmCypher run llmAnswer question = .error e →
      handle_complex_query llmCypher run llmAnswer question
        = "I encountered an error while processing your question. Please try again.") := by
  constructor
  · intro matchQ getQuery exec fmt question e h
    unfold answer_question_general
    rw [h]
  · intro llmCypher run llmAnswer question e h
    unfold handle_complex_query
    rw [h]

/-- Witness for the amended C2: concrete components whose generative-model
call raises make each pipeline produce its own fixed message. -/
theorem C2_orchestrator_catch_messages_witness :
    answer_question_general (fun _ => .error "APIConnectionError")
      (fun _ => .error "") (fun _ _ => .error "") (fun _ _ => .error "") "q"
      = "I encountered an error while processing your question."
    ∧ handle_complex_query (fun _ => .error "APIConnectionError")
      (fun _ => .ok []) (fun _ _ => .ok "") "q"
      = "I encountered an error while processing your question. Please try again." :=
  ⟨C2_orchestrator_catch_messages.1 _ _ _ _ "q" "APIConnectionError" rfl,
   C2_orchestrator_catch_messages.2 _ _ _ "q" "APIConnectionError" rfl⟩

/-- C8: when parsing the model response raises, `get_question_intent`
returns exactly the dict with a null primary intent and empty entities. -/
theorem C8_intent_parse_fallback :
    ∀ (llm : String → Except String String) (parse : String → Except String Json)
      (question raw e : String),
      llm question = .ok raw → parse (pyStrip raw) = .error e →
      get_question_intent llm parse question
        = Json.obj [("primary_intent", Json.null), ("entities", Json.obj [])] := by
  intro llm parse question raw e h1 h2
  unfold get_question_intent
  rw [h1]
  show (match parse (pyStrip raw) with
    | .error _ => intentFallback
    | .ok v => v) = _
  rw [h2]
  rfl

/-- Witness for C8 at a concrete malformed model response. -/
theorem C8_intent_parse_fallback_witness :
    get_question_intent (fun _ => .ok "not json") (fun _ => .error "JSONDecodeError")
      "who directed Alien"
      = Json.obj [("primary_intent", Json.null), ("entities", Json.obj [])] :=
  C8_intent_parse_fallback (fun _ => .ok "not json")
    (fun _ => .error "JSONDecodeError") "who directed Alien" "not json"
    "JSONDecodeError" rfl rfl

/-- C10: whatever JSON value the model response parses to — object of any
shape, list, string — `get_question_intent` returns it unchanged. -/
theorem C10_intent_no_validation :
    ∀ (llm : String → Except String String) (parse : String → Except String Json)
      (question raw : String) (v : Json),
      llm question = .ok raw → parse (pyStrip raw) = .ok v →
      get_question_intent llm parse question = v := by
  intro llm parse question raw v h1 h2
  unfold get_question_intent
  rw [h1]
  show (match parse (pyStrip raw) with
    | .error _ => intentFallback
    | .ok v => v) = _
  rw [h2]

/-- Witness for C10: a JSON list (not an object, missing both expected
keys) is returned as-is. -/
theorem C10_intent_no_validation_witness :
    get_question_intent (fun _ => .ok "[]") (fun _ => .ok (Json.arr []))
      "who directed Alien" = Json.arr [] :=
  C10_intent_no_validation (fun _ => .ok "[]") (fun _ => .ok (Json.arr []))
    "who directed Alien" "[]" (Json.arr []) rfl rfl

/-- C9: the deterministic `execute_query` selects the parameter-binding
branch by truthiness (`if param:`), so `None` and the empty string both
run the query with no bound parameters; a matched question whose captured
parameter strips to the empty string (such as
`"what movies did !!! direct"`) therefore runs the `director_movies`
template unbound, and when the graph store rejects the unbound `$param1`
reference the user sees `"No results found."`. -/
theorem C9_truthiness_empty_param :
    (pyTruthyStr none = false ∧ pyTruthyStr (some "") = false
      ∧ pyTruthyStr (some "Christopher Nolan") = true)
    ∧ (∀ (run : String → Option String → Except String (List Row)) (query : String),
        sessionCallDet run query (some "") = run query none)
    ∧ match_question "what movies did !!! direct" = (some "director_movies", some "")
    ∧ (∀ (run : String → Option String → Except String (List Row)) (e : String),
        run director_query none = .error e →
        answer_question run "what movies did !!! direct" = "No results found.") := by
  refine ⟨⟨rfl, rfl, rfl⟩, fun run query => rfl, by decide, ?_⟩
  intro run e h
  have hstep : answer_question run "what movies did !!! direct"
      = format_response "director_movies"
          (execute_query run director_query (some "")).1 := rfl
  have h' : sessionCallDet run director_query (some "") = .error e := h
  have hexec : (execute_query run director_query (some "")).1 = [] := by
    unfold execute_query
    rw [h']
  rw [hstep, hexec]
  rfl

/-- Witness for C9: with a session that rejects the unbound parameter,
the empty-parameter question produces `"No results found."`. -/
theorem C9_truthiness_empty_param_witness :
    answer_question (fun _ _ => .error "ParameterMissing: param1")
      "what movies did !!! direct" = "No results found." :=
  C9_truthiness_empty_param.2.2.2 (fun _ _ => .error "ParameterMissing: param1")
    "ParameterMissing: param1" rfl

/-- C3: `match_question` trims surrounding whitespace first; each regex
is anchored at position 0 (a match forces the lowered prefix literal to
be a prefix of the lowered question); the selected intent depends only on
the case-folded question (case-insensitivity); within an intent the first
matching alternative wins; and the intents are tried in the fixed order
`director_movies`, `actor_movies`, `movie_info`, the first match ending
the search. -/
theorem C3_matcher_order :
    (∀ q : String, match_question q = match_question (pyStrip q))
    ∧ (∀ pfx sfx q g : String, pymatch pfx sfx q = some g →
        (lowerL pfx.data).isPrefixOf (lowerL q.data) = true)
    ∧ (∀ q1 q2 : String, lowerL q1.data = lowerL q2.data →
        (match_question q1).1 = (match_question q2).1)
    ∧ (∀ (pfx sfx : String) (rest : List (String × String)) (q g : String),
        pymatch pfx sfx q = some g → tryPatterns ((pfx, sfx) :: rest) q = some g)
    ∧ (∀ q g, tryPatterns director_patterns (pyStrip q) = some g →
        match_question q = (some "director_movies", some (stripPunct g)))
    ∧ (∀ q g, tryPatterns director_patterns (pyStrip q) = none →
        tryPatterns actor_patterns (pyStrip q) = some g →
        match_question q = (some "actor_movies", some (stripPunct g)))
    ∧ (∀ q g, tryPatterns director_patterns (pyStrip q) = none →
        tryPatterns actor_patterns (pyStrip q) = none →
        tryPatterns movie_info_patterns (pyStrip q) = some g →
        match_question q = (some "movie_info", some (stripPunct g)))
    ∧ (∀ q, tryPatterns director_patterns (pyStrip q) = none →
        tryPatterns actor_patterns (pyStrip q) = none →
        tryPatterns movie_info_patterns (pyStrip q) = none →
        match_question q = (none, none)) := by
  refine ⟨?_, pymatch_anchor, match_question_fst_of_lower_eq, ?_, ?_, ?_, ?_, ?_⟩
  · intro q
    unfold match_question
    rw [pyStrip_idem q]
  · intro pfx sfx rest q g h
    unfold tryPatterns
    rw [h]
  · intro q g h
    simp [match_question, question_patterns, matchFirst, h]
  · intro q g h1 h2
    simp [match_question, question_patterns, matchFirst, h1, h2]
  · intro q g h1 h2 h3
    simp [match_question, question_patterns, matchFirst, h1, h2, h3]
  · intro q h1 h2 h3
    simp [match_question, question_patterns, matchFirst, h1, h2, h3]

/-- Witness for C3 at concrete questions: trim-invariance,
case-insensitivity, first intent winning, and the third intent reached
only after the first two fail. -/
theorem C3_matcher_order_witness :
    match_question "  What movies did Tom Hanks act in  "
      = match_question (pyStrip "  What movies did Tom Hanks act in  ")
    ∧ (match_question "SHOW ME MOVIES DIRECTED BY NOLAN").1
      = (match_question "show me movies directed by nolan").1
    ∧ match_question "What movies did Christopher Nolan direct"
      = (some "director_movies", some (stripPunct "Christopher Nolan"))
    ∧ match_question "Tell me about the movie Inception"
      = (some "movie_info", some (stripPunct "Inception")) :=
  ⟨C3_matcher_order.1 "  What movies did Tom Hanks act in  ",
   C3_matcher_order.2.2.1 "SHOW ME MOVIES DIRECTED BY NOLAN"
     "show me movies directed by nolan" (by decide),
   C3_matcher_order.2.2.2.2.1 "What movies did Christopher Nolan direct"
     "Christopher Nolan" (by decide),
   C3_matcher_order.2.2.2.2.2.2.1 "Tell me about the movie Inception"
     "Inception" (by decide) (by decide) (by decide)⟩

theorem format_response_movies_lines (query_type : String) (results : List Row)
    (hq : query_type = "director_movies" ∨ query_type = "actor_movies")
    (hne : results ≠ []) (hnl : ∀ r ∈ results, rowNLFree r) :
    splitNL (format_response query_type results).data = results.map fmtMovieLine := by
  have hfmt : (format_response query_type results).data
      = joinSep ['\n'] (results.map fmtMovieLine) := by
    cases results with
    | nil => cases hne rfl
    | cons r rs => rcases hq with h | h <;> subst h <;> rfl
  rw [hfmt]
  refine splitNL_joinSep _ (by simp [hne]) ?_
  intro xs hxs c hc
  obtain ⟨r, hr, rfl⟩ := List.mem_map.1 hxs
  exact fmtMovieLine_nl_free r (hnl r hr) c hc

/-- C5: for `director_movies` and `actor_movies` results the formatter
renders exactly one line per row, each line exactly
`"<movie> (<year>) - Rating: <rating>"`, in the order of the rows; an
empty result list renders as exactly `"No results found."` for every
query type. -/
theorem C5_format_response_shape :
    (∀ query_type : String, format_response query_type [] = "No results found.")
    ∧ (∀ (query_type : String) (results : List Row),
        (query_type = "director_movies" ∨ query_type = "actor_movies") →
        results ≠ [] → (∀ r ∈ results, rowNLFree r) →
        splitNL (format_response query_type results).data = results.map fmtMovieLine
        ∧ (∀ r : Row, fmtMovieLine r
            = r.movie ++ (" (").data ++ r.year ++ (") - Rating: ").data ++ r.rating)) := by
  constructor
  · intro query_type
    rfl
  · intro query_type results hq hne hnl
    exact ⟨format_response_movies_lines query_type results hq hne hnl, fun r => rfl⟩

/-- Witness for C5: the empty case and a concrete two-row rendering. -/
theorem C5_format_response_shape_witness :
    format_response "movie_info" [] = "No results found."
    ∧ splitNL (format_response "director_movies" [sampleRow1, sampleRow2]).data
      = [sampleRow1, sampleRow2].map fmtMovieLine :=
  ⟨C5_format_response_shape.1 "movie_info",
   (C5_format_response_shape.2 "director_movies" [sampleRow1, sampleRow2]
     (Or.inl rfl) (by decide) (by decide)).1⟩

set_option maxRecDepth 4000 in
/-- C4: the round-trip scenario: the Nolan question matches
`director_movies` with parameter `"Christopher Nolan"`; the answer is the
formatted result of running the `director_movies` template with the
parameter bound (the template itself references `$param1` and does not
contain the interpolated name); and the output has one line per returned
movie. -/
theorem C4_nolan_roundtrip :
    ∀ (run : String → Option String → Except String (List Row)) (results : List Row),
      run director_query (some "Christopher Nolan") = .ok results →
      match_question "What movies did Christopher Nolan direct"
        = (some "director_movies", some "Christopher Nolan")
      ∧ answer_question run "What movies did Christopher Nolan direct"
        = format_response "director_movies" results
      ∧ hasSubstr ("$param1").data director_query.data = true
      ∧ hasSubstr ("Christopher Nolan").data director_query.data = false
      ∧ (results ≠ [] → (∀ r ∈ results, rowNLFree r) →
          splitNL (answer_question run "What movies did Christopher Nolan direct").data
            = results.map fmtMovieLine) := by
  intro run results h
  have h' : sessionCallDet run director_query (some "Christopher Nolan")
      = .ok results := h
  have hstep : answer_question run "What movies did Christopher Nolan direct"
      = format_response "director_movies"
          (execute_query run director_query (some "Christopher Nolan")).1 := rfl
  have hexec : (execute_query run director_query (some "Christopher Nolan")).1
      = results := by
    unfold execute_query
    rw [h']
  have hans : answer_question run "What movies did Christopher Nolan direct"
      = format_response "director_movies" results := by rw [hstep, hexec]
  refine ⟨by decide, hans, by decide, by decide, ?_⟩
  intro hne hnl
  rw [hans]
  exact format_response_movies_lines "director_movies" results (Or.inl rfl) hne hnl

/-- Witness for C4 with a session returning one concrete row. -/
theorem C4_nolan_roundtrip_witness :
    answer_question (fun _ _ => .ok [sampleRow1])
      "What movies did Christopher Nolan direct"
      = format_response "director_movies" [sampleRow1] :=
  (C4_nolan_roundtrip (fun _ _ => .ok [sampleRow1]) [sampleRow1] rfl).2.1

theorem tryPatterns_eq_none_of_all (pats : List (String × String)) (q : String)
    (h : ∀ pat ∈ pats, pymatch pat.1 pat.2 q = none) : tryPatterns pats q = none := by
  induction pats with
  | nil => rfl
  | cons p rest ih =>
    obtain ⟨pfx, sfx⟩ := p
    unfold tryPatterns
    rw [h (pfx, sfx) (by simp)]
    exact ih (fun pat hp => h pat (by simp [hp]))

theorem answer_question_of_match_none
    (run : String → Option String → Except String (List Row)) (question : String)
    (h : match_question question = (none, none)) :
    answer_question run question
      = "I\x27m sorry, I don\x27t understand that question." := by
  unfold answer_question answer_question_general det_pipeline
  simp only [h]
  rfl

/-- C6: a question on which every regex of every intent fails yields
`(none, none)` from `match_question`, and `answer_question` then returns
exactly the fixed unknown-question message instead of raising. -/
theorem C6_no_match_fallback :
    ∀ (question : String) (run : String → Option String → Except String (List Row)),
      (∀ entry ∈ question_patterns, ∀ pat ∈ entry.2.1,
        pymatch pat.1 pat.2 (pyStrip question) = none) →
      match_question question = (none, none)
      ∧ answer_question run question
        = "I\x27m sorry, I don\x27t understand that question." := by
  intro question run h
  have hd : tryPatterns director_patterns (pyStrip question) = none :=
    tryPatterns_eq_none_of_all _ _ (fun pat hp =>
      h ("director_movies", (director_patterns, director_query))
        (by simp [question_patterns]) pat hp)
  have ha : tryPatterns actor_patterns (pyStrip question) = none :=
    tryPatterns_eq_none_of_all _ _ (fun pat hp =>
      h ("actor_movies", (actor_patterns, actor_query))
        (by simp [question_patterns]) pat hp)
  have hi : tryPatterns movie_info_patterns (pyStrip question) = none :=
    tryPatterns_eq_none_of_all _ _ (fun pat hp =>
      h ("movie_info", (movie_info_patterns, movie_info_query))
        (by simp [question_patterns]) pat hp)
  have hmq : match_question question = (none, none) := by
    simp [match_question, question_patterns, matchFirst, hd, ha, hi]
  exact ⟨hmq, answer_question_of_match_none run question hmq⟩

/-- Witness for C6 at the unmatched question `"hello"`. -/
theorem C6_no_match_fallback_witness :
    match_question "hello" = (none, none)
    ∧ answer_question (fun _ _ => .ok []) "hello"
      = "I\x27m sorry, I don\x27t understand that question." :=
  C6_no_match_fallback "hello" (fun _ _ => .ok []) (by decide)

theorem isPrefixOf_append_self (l₁ l₂ : List Char) : l₁.isPrefixOf (l₁ ++ l₂) = true := by
  induction l₁ with
  | nil => simp [List.isPrefixOf]
  | cons a as ih => simp [List.isPrefixOf, ih]

theorem dropWhile_bt_fence (X : List Char) :
    (("```").data ++ X).dropWhile (fun c => c == backtick)
      = X.dropWhile (fun c => c == backtick) := by
  show (backtick :: (backtick :: (backtick :: X))).dropWhile _ = _
  rw [List.dropWhile_cons_of_pos (by simp), List.dropWhile_cons_of_pos (by simp),
    List.dropWhile_cons_of_pos (by simp)]

theorem pyStripWith_edge (p : Char → Bool) (a b : Char) (l : List Char)
    (ha : p a = false) (hb : p b = false) :
    pyStripWith p (a :: l ++ [b]) = a :: l ++ [b] := by
  have h1 : (a :: l ++ [b]).dropWhile p = a :: l ++ [b] :=
    List.dropWhile_cons_of_neg (by simp [ha])
  have h2 : (a :: l ++ [b]).reverse = b :: (l.reverse ++ [a]) := by simp
  have h3 : (b :: (l.reverse ++ [a])).dropWhile p = b :: (l.reverse ++ [a]) :=
    List.dropWhile_cons_of_neg (by simp [hb])
  unfold pyStripWith
  rw [h1, h2, h3, ← h2, List.reverse_reverse]

theorem threeBt_shape (l : List Char) :
    ("```").data ++ l ++ ("```").data
      = backtick :: ((backtick :: backtick :: l ++ [backtick, backtick]) ++ [backtick]) := by
  have hb : ("```").data = [backtick, backtick, backtick] := by decide
  rw [hb]
  simp [List.append_assoc]

theorem stripSp_fenced (l : List Char) :
    pyStripL (("```").data ++ l ++ ("```").data)
      = ("```").data ++ l ++ ("```").data := by
  rw [threeBt_shape]
  exact pyStripWith_edge pyIsSpace backtick backtick _ (by decide) (by decide)

theorem stripBt_fenced (l : List Char) (hl : ∀ c ∈ l, (c == backtick) = false) :
    pyStripWith (fun c => c == backtick)
      (("```").data ++ l ++ ("```").data) = l := by
  cases l with
  | nil => decide
  | cons c cs =>
    have hc : (c == backtick) = false := hl c (by simp)
    have hcs : ∀ d ∈ cs.reverse ++ [c], (d == backtick) = false := by
      intro d hd
      rcases List.mem_append.1 hd with h1 | h1
      · exact hl d (by simp [List.mem_reverse.1 h1])
      · simp at h1
        subst h1
        exact hc
    unfold pyStripWith
    rw [List.append_assoc, dropWhile_bt_fence]
    have s2 : ((c :: cs) ++ ("```").data).dropWhile (fun d => d == backtick)
        = (c :: cs) ++ ("```").data := List.dropWhile_cons_of_neg (by simp [hc])
    rw [s2]
    have s3 : ((c :: cs) ++ ("```").data).reverse
        = ("```").data ++ (cs.reverse ++ [c]) := by
      rw [List.reverse_append]
      have : (("```").data).reverse = ("```").data := by decide
      rw [this]
      simp
    rw [s3, dropWhile_bt_fence, dropWhile_of_all_neg _ _ hcs]
    simp

/-- C7: the query synthesiser strips surrounding whitespace from the
model response, and when the response is wrapped in triple-backtick
fences it removes the fences and returns the stripped query text inside
them; a response with no leading fence is returned only
whitespace-stripped. -/
theorem C7_cypher_fence_strip :
    (∀ raw : String, ("```").data.isPrefixOf (pyStrip raw).data = false →
      sanitize_cypher raw = pyStrip raw)
    ∧ (∀ s : String, backtick ∉ s.data →
      sanitize_cypher ("```" ++ s ++ "```") = pyStrip s) := by
  constructor
  · intro raw h
    unfold sanitize_cypher
    simp [h]
  · intro s hs
    have hl : ∀ c ∈ s.data, (c == backtick) = false :=
      fun c hc => beq_eq_false_iff_ne.2 (fun e => hs (e ▸ hc))
    have hdata : ("```" ++ s ++ "```").data
        = ("```").data ++ s.data ++ ("```").data := by
      rw [String.data_append, String.data_append]
    have h1 : pyStrip ("```" ++ s ++ "```") = "```" ++ s ++ "```" := by
      show String.mk (pyStripL ("```" ++ s ++ "```").data) = "```" ++ s ++ "```"
      rw [hdata, stripSp_fenced, ← hdata]
    show (if ("```").data.isPrefixOf (pyStrip ("```" ++ s ++ "```")).data then
        pyStrip ⟨pyStripWith (fun c => c == backtick)
          (pyStrip ("```" ++ s ++ "```")).data⟩
      else pyStrip ("```" ++ s ++ "```")) = pyStrip s
    rw [h1, hdata]
    rw [if_pos (by
      rw [List.append_assoc]
      exact isPrefixOf_append_self _ _)]
    rw [stripBt_fenced s.data hl]

/-- Witness for C7 at a concrete fenced and unfenced model response. -/
theorem C7_cypher_fence_strip_witness :
    sanitize_cypher "MATCH (n:Movie) RETURN n" = pyStrip "MATCH (n:Movie) RETURN n"
    ∧ sanitize_cypher ("```" ++ "MATCH (n:Movie) RETURN n" ++ "```")
      = pyStrip "MATCH (n:Movie) RETURN n" :=
  ⟨C7_cypher_fence_strip.1 "MATCH (n:Movie) RETURN n" (by decide),
   C7_cypher_fence_strip.2 "MATCH (n:Movie) RETURN n" (by decide)⟩

end MovieQA
